import Mathlib

/-!
Verification development for the ugrd initramfs generator.

This file gives a shallow embedding of the parts of the repository that the
checked properties are about:

* the cryptsetup module (src/ugrd/crypto/cryptsetup.py, version 3.10.0):
  configuration processing, raw configuration validation, and the unlock
  script synthesizer (open_crypt_device / crypt_init);
* the init assembler (ugrd/initramfs_generator.py, version 0.9.4):
  hook execution (_run_func / _run_funcs), function registration, and
  generate_init;
* the command runner (ugrd/generator_helpers.py): _run with timeout and
  fail_silent / fail_hard handling.

Python dictionaries holding heterogeneous configuration values are embedded
as association lists of a small value type CVal; Python truthiness and the
str() rendering used in f-strings are made explicit.  Fallible Python code
(KeyError, raised exceptions) is embedded in Option / Except.  Logging calls
at debug level and terminal color codes are not modelled; warning, info and
error level log calls that the properties mention are returned explicitly.
-/

/-- A Python configuration value: the repository only stores strings,
integers and booleans in the cryptsetup volume dictionaries. -/
inductive CVal where
  | str (s : String)
  | nat (n : Nat)
  | bool (b : Bool)
  deriving DecidableEq, Repr

/-- Python truthiness of a configuration value. -/
def CVal.truthy : CVal → Bool
  | .str s => s ≠ ""
  | .nat n => n ≠ 0
  | .bool b => b

/-- The text Python produces when the value is interpolated into an f-string. -/
def CVal.render : CVal → String
  | .str s => s
  | .nat n => toString n
  | .bool b => if b then "True" else "False"

/-- A Python dict with string keys, embedded as an association list
(keys unique, insertion order preserved). -/
abbrev Config := List (String × CVal)

/-- Python dict.get: the value stored at a key, if present. -/
def cvGet (c : Config) (k : String) : Option CVal := List.lookup k c

/-- Python `key in dict`. -/
def hasKey (c : Config) (k : String) : Bool := (cvGet c k).isSome

/-- Truthiness of dict.get(key): false when the key is absent. -/
def truthyKey (c : Config) (k : String) : Bool := ((cvGet c k).map CVal.truthy).getD false

/-- Python dict assignment: update in place when the key exists, else append
(Python dicts keep insertion order). -/
def listSet {β : Type} (c : List (String × β)) (k : String) (v : β) : List (String × β) :=
  match c with
  | [] => [(k, v)]
  | (k2, v2) :: rest => if k2 = k then (k, v) :: rest else (k2, v2) :: listSet rest k v

/-- Python dict(a, **b): a copy of a updated with every entry of b. -/
def dictMerge (a b : Config) : Config := b.foldl (fun acc kv => listSet acc kv.1 kv.2) a

/-- Python dict.pop: remove a key if present. -/
def dictPop (c : Config) (k : String) : Config := c.filter (fun kv => kv.1 ≠ k)

/-- Log levels used by the modelled logging calls. -/
inductive LogLevel where
  | debug | info | warning | error
  deriving DecidableEq, Repr

/-- One log record: the level it was emitted at and its message. -/
structure LogMsg where
  level : LogLevel
  msg : String
  deriving DecidableEq, Repr

/-- zenlib colorize only wraps the text in terminal color escape codes;
modelled as the identity on the text. -/
def colorize (s : String) : String := s

namespace Cryptsetup

/-- The constant CRYPTSETUP_KEY_PARAMETERS from src/ugrd/crypto/cryptsetup.py. -/
def CRYPTSETUP_KEY_PARAMETERS : List String :=
  ["key_command", "plymouth_key_command", "reset_command"]

/-- The constant CRYPTSETUP_PARAMETERS from src/ugrd/crypto/cryptsetup.py. -/
def CRYPTSETUP_PARAMETERS : List String :=
  ["key_type", "partuuid", "uuid", "path", "key_file", "header_file", "retries"]
    ++ CRYPTSETUP_KEY_PARAMETERS
    ++ ["try_nokey", "include_key", "include_header", "validate_key", "validate_header"]

/-- Version string (__version__) of the cryptsetup module. -/
def cryptsetup_version : String := "3.10.0"

/-- The global configuration flags read by open_crypt_device and crypt_init. -/
structure Globals where
  cryptsetup_prompt : Bool
  cryptsetup_trim : Bool
  cryptsetup_autoretry : Bool
  /-- whether "ugrd.base.plymouth" is in self["modules"] -/
  plymouth_module : Bool
  deriving DecidableEq, Repr

/-- Model of open_crypt_device: returns the bash lines that open one cryptsetup
volume, or none where the Python raises KeyError (missing "retries", or a
key_command configured without any key_file entry). -/
def open_crypt_device (g : Globals) (name : String) (parameters : Config) :
    Option (List String) := do
  let retriesVal ← cvGet parameters "retries"
  let r := retriesVal.render
  let out0 : List String :=
    if g.cryptsetup_prompt then [s!"prompt_user \x27Press enter to unlock device: {name}\x27"]
    else []
  let out1 := out0 ++ [s!"for ((i = 1; i <= {r}; i++)); do"]
  let out2 := out1 ++
    [s!"    crypt_dev=\"$(get_crypt_dev {name})\"",
     "    if [ -z \"$crypt_dev\" ]; then",
     s!"        rd_fail \"Failed to resolve device source for cryptsetup mount: {name}\"",
     "    fi"]
  let reset_command := ((cvGet parameters "reset_command").map CVal.render).getD "continue"
  let out3 ←
    if (cvGet parameters "key_command").isSome then do
      let kc := ((cvGet parameters "key_command").map CVal.render).getD ""
      let kfv ← cvGet parameters "key_file"
      let kf := kfv.render
      let base := out2 ++
        [s!"    einfo \x27Attempting to open LUKS key: {kf}\x27",
         s!"    edebug \x27Using key command: {kc}\x27"]
      if (cvGet parameters "plymouth_key_command").isSome && g.plymouth_module then
        let pkc := ((cvGet parameters "plymouth_key_command").map CVal.render).getD ""
        pure (base ++
          ["    if plymouth --ping; then",
           s!"        plymouth ask-for-password --prompt \"[$\x7bi\x7d / {r}] Enter passphrase to unlock key for: {name}\" --command \"{pkc}\" --number-of-tries 1 > /run/vars/key_data || {reset_command}",
           "    else",
           s!"        {kc} > /run/vars/key_data || {reset_command}",
           "    fi"])
      else
        pure (base ++ [s!"    {kc} > /run/vars/key_data || {reset_command}"])
    else pure out2
  let cc0 := "cryptsetup open --tries 1"
  let target := s!"\"$crypt_dev\" {name}"
  let headerOpt := cvGet parameters "header_file"
  let hf := (headerOpt.map CVal.render).getD ""
  let ccHdr := s!" --header {hf}"
  let useHeader := (headerOpt.map CVal.truthy).getD false
  let out4 := if useHeader then out3 ++ [s!"    einfo \x27Using header file: {hf}\x27"] else out3
  let cc1 := if useHeader then cc0 ++ ccHdr else cc0
  let cc := if g.cryptsetup_trim then cc1 ++ " --allow-discards" else cc1
  let out5 := out4 ++
    ["    einfo \"Unlocking device: $crypt_dev\"",
     "    if [ -e /run/vars/key_data ]; then",
     s!"        if {cc} --key-file=/run/vars/key_data {target}; then",
     "            rm /run/vars/key_data",
     "            break",
     "        fi",
     "        rm /run/vars/key_data"]
  let out6 :=
    if g.plymouth_module then
      out5 ++
        [s!"    elif plymouth --ping && plymouth ask-for-password --prompt \"[$\x7bi\x7d / {r}] Enter passphrase to unlock {name}\" --command \"{cc} {target}\" --number-of-tries 1; then",
         "        break"]
    else out5
  let out7 :=
    if hasKey parameters "key_file" then
      let kf := ((cvGet parameters "key_file").map CVal.render).getD ""
      out6 ++ [s!"    elif {cc} --key-file {kf} {target}; then"]
    else out6 ++ [s!"    elif {cc} {target}; then"]
  let out8 := out7 ++
    ["        break", "    fi", s!"    ewarn \"Failed to open device: {name} ($i / {r})\""]
  let out9 :=
    if !g.cryptsetup_autoretry then out8 ++ ["    prompt_user \"Press enter to retry\""] else out8
  let out10 :=
    if reset_command ≠ "continue" then
      out9 ++ ["    einfo \"Running key reset command\"", s!"    {reset_command}"]
    else out9
  pure (out10 ++ ["done\n"])

/-- The parameters popped from the volume configuration before the
try_nokey fallback re-run in crypt_init. -/
def strip_key_params (p : Config) : Config :=
  dictPop (dictPop (dictPop p "key_file") "key_command") "reset_command"

/-- The per-volume lines crypt_init emits before the unlock loop: skip the
volume when its mapper name is already open. -/
def already_open_check (name : String) : List String :=
  [s!"if cryptsetup status {name} > /dev/null 2>&1; then",
   s!"    ewarn \"Device already open: {name}\"",
   "    return",
   "fi"]

/-- The per-volume lines crypt_init emits after the unlock attempts: fail
the boot when the device is still not open. -/
def final_open_check (name : String) : List String :=
  [s!"if ! cryptsetup status {name} > /dev/null 2>&1; then",
   s!"    rd_fail \"Failed to open cryptsetup device: {name}\"",
   "fi",
   s!"einfo \"Successfully opened cryptsetup device: {name}\""]

/-- The try_nokey fallback block of crypt_init: a guarded, indented re-run
of open_crypt_device with key_file, key_command and reset_command removed. -/
def nokey_fallback (g : Globals) (name : String) (parameters : Config) :
    Option (List String) := do
  let inner ← open_crypt_device g name (strip_key_params parameters)
  pure ([s!"if ! cryptsetup status {name} > /dev/null 2>&1; then",
         s!"    ewarn \"Failed to open device using keys: {name}\""] ++
        inner.map (fun bash_line => "    " ++ bash_line) ++ ["fi"])

/-- The body of the loop over self["cryptsetup"].items() in crypt_init. -/
def crypt_init_body (g : Globals) : List (String × Config) → Option (List String)
  | [] => some []
  | (name, parameters) :: rest => do
    let opened ← open_crypt_device g name parameters
    let fb ←
      if hasKey parameters "try_nokey" && truthyKey parameters "key_file" then
        nokey_fallback g name parameters
      else pure []
    let tail ← crypt_init_body g rest
    pure (already_open_check name ++ opened ++ fb ++ final_open_check name ++ tail)

/-- Model of crypt_init: the bash script portion unlocking all configured volumes. -/
def crypt_init (g : Globals) (volumes : List (String × Config)) : Option (List String) := do
  let body ← crypt_init_body g volumes
  pure (s!"einfo \"Unlocking LUKS volumes, ugrd.cryptsetup version: {cryptsetup_version}\"" :: body)

/-- The build-time store fields read and written by _process_cryptsetup_multi. -/
structure ProcStore where
  cryptsetup : List (String × Config)
  cryptsetup_key_types : List (String × Config)
  /-- self.get("cryptsetup_key_type"), the default key type -/
  cryptsetup_key_type : Option CVal
  /-- self["cryptsetup_retries"], the global retries default -/
  cryptsetup_retries : Nat
  dependencies : List CVal
  deriving DecidableEq, Repr

/-- Model of _merge_cryptsetup: dict(existing, **config) when an entry for the
mapped name already exists, the new configuration otherwise. -/
def _merge_cryptsetup (store : ProcStore) (mapped_name : String) (config : Config) : Config :=
  match List.lookup mapped_name store.cryptsetup with
  | none => config
  | some existing => dictMerge existing config

/-- One step of Python str.format on a template: doubled braces are
literals, a braced field name is replaced by the rendering of that key of
the config (none on an unterminated or unknown field, as Python raises).
The fuel argument only bounds the recursion; it is always sufficient. -/
def pyFormatAux (cfg : Config) : Nat → List Char → Option (List Char)
  | 0, _ => none
  | _ + 1, [] => some []
  | fuel + 1, c :: rest =>
    if c = '\x7b' then
      match rest with
      | [] => none
      | c2 :: rest2 =>
        if c2 = '\x7b' then (pyFormatAux cfg fuel rest2).map (fun t => '\x7b' :: t)
        else
          let field := (c2 :: rest2).takeWhile (fun ch => ch ≠ '\x7d')
          match (c2 :: rest2).dropWhile (fun ch => ch ≠ '\x7d') with
          | [] => none
          | _ :: after =>
            match cvGet cfg (String.mk field) with
            | none => none
            | some v => (pyFormatAux cfg fuel after).map (fun t => v.render.data ++ t)
    else if c = '\x7d' then
      match rest with
      | [] => none
      | c2 :: rest2 =>
        if c2 = '\x7d' then (pyFormatAux cfg fuel rest2).map (fun t => '\x7d' :: t) else none
    else (pyFormatAux cfg fuel rest).map (fun t => c :: t)

/-- Python value.format(**config) for a string template. -/
def pyFormat (cfg : Config) (template : String) : Option String :=
  (pyFormatAux cfg (template.length + 1) template.data).map String.mk

/-- The key-type inheritance loop of _process_cryptsetup_multi: for each
key parameter with a truthy value in the key type configuration, store its
parameter-substituted text in the volume configuration (none where Python
raises: a substitution field missing from the config, or a non-string
template, which has no format method). -/
def inherit_key_params (key_type_config : Config) : List String → Config → Option Config
  | [], config => some config
  | parameter :: rest, config =>
    match cvGet key_type_config parameter with
    | some v =>
      if v.truthy then
        match v with
        | .str template =>
          match pyFormat config template with
          | some formatted =>
            inherit_key_params key_type_config rest (listSet config parameter (.str formatted))
          | none => none
        | _ => none
      else inherit_key_params key_type_config rest config
    | none => inherit_key_params key_type_config rest config

/-- Model of _process_cryptsetup_multi: merges a new partial volume configuration
into the store, resolves the key type, exports include_key / include_header
dependencies and fills the retries default.  Returns the updated store and
the warning-or-higher log records it emitted (debug logging not modelled). -/
def _process_cryptsetup_multi (store : ProcStore) (mapped_name : String) (config : Config) :
    Except String (ProcStore × List LogMsg) := do
  let unknown_logs : List LogMsg :=
    (config.filter (fun kv => !CRYPTSETUP_PARAMETERS.contains kv.1)).map
      (fun kv => ⟨.error, s!"[{mapped_name}] Unknown parameter: " ++ colorize kv.1⟩)
  let config := _merge_cryptsetup store mapped_name config
  let key_type_val : Option CVal :=
    match cvGet config "key_type" with
    | some v => some v
    | none => store.cryptsetup_key_type
  let config ←
    match key_type_val with
    | some kt =>
      if kt.truthy then
        match kt with
        | .str ktn =>
          match List.lookup ktn store.cryptsetup_key_types with
          | none => Except.error s!"Unknown key type: {ktn}"
          | some key_type_config =>
            let config := listSet config "key_type" (.str ktn)
            match inherit_key_params key_type_config CRYPTSETUP_KEY_PARAMETERS config with
            | some c => pure c
            | none => Except.error s!"Key type parameter substitution failed for: {ktn}"
        | other => Except.error ("Unknown key type: " ++ other.render)
      else pure config
    | none => pure config
  let deps1 ←
    if truthyKey config "include_key" then
      match cvGet config "key_file" with
      | some v => pure (store.dependencies ++ [v])
      | none => Except.error "KeyError: key_file"
    else pure store.dependencies
  let deps2 ←
    if truthyKey config "include_header" then
      match cvGet config "header_file" with
      | some v => pure (deps1 ++ [v])
      | none => Except.error "KeyError: header_file"
    else pure deps1
  let (config, retry_logs) :=
    if !truthyKey config "retries" then
      (listSet config "retries" (.nat store.cryptsetup_retries),
       ([⟨LogLevel.info,
          s!"[ugrd.crypto.cryptsetup:{mapped_name}] No retries specified, using default: {store.cryptsetup_retries}"⟩] :
            List LogMsg))
    else (config, [])
  pure ({ store with
            cryptsetup := listSet store.cryptsetup mapped_name config,
            dependencies := deps2 },
        unknown_logs ++ retry_logs)

/-- The build-time store fields read by the raw configuration validators. -/
structure ValidationStore where
  /-- self["validate"], tested by the contains decorator -/
  validate : Bool
  cryptsetup : List (String × Config)
  autodetect_root_luks : Bool
  cryptsetup_keyfile_validation : Bool
  /-- the paths that exist on the build host -/
  host_files : List String
  deriving DecidableEq, Repr

/-- Model of _validate_crypysetup_key (name as in the source): validates the key
file of a volume; skipped entirely when validation is disabled, for
included keys, and when validate_key is False.  The registration of the
key path on the check_included_or_mounted list is not modelled. -/
def _validate_crypysetup_key (store : ValidationStore) (key_parameters : Config) :
    Except String (List LogMsg) :=
  if !store.validate then .ok [⟨.warning, "Skipping cryptsetup keyfile validation."⟩]
  else if truthyKey key_parameters "include_key" then
    .ok [⟨.info, "Skipping key validation for included key."⟩]
  else if cvGet key_parameters "validate_key" = some (.bool false) then
    match cvGet key_parameters "key_file" with
    | none => .error "KeyError: key_file"
    | some kfv => .ok [⟨.info, "Skipping key validation for: " ++ colorize kfv.render⟩]
  else
    match cvGet key_parameters "key_file" with
    | none => .error "KeyError: key_file"
    | some kfv =>
      let key_path := kfv.render
      if store.cryptsetup_keyfile_validation
          && !(cvGet key_parameters "validate_key" = some (.bool false)) then
        if !store.host_files.contains key_path then
          .error s!"Key file not found: {key_path}"
        else .ok []
      else .ok []

/-- The first configuration key outside CRYPTSETUP_PARAMETERS, if any. -/
def firstUnknownParam (config : Config) : Option String :=
  (config.find? (fun kv => !CRYPTSETUP_PARAMETERS.contains kv.1)).map (fun kv => kv.1)

/-- Model of _validate_cryptsetup_config: raw validation of one volume entry.
Unknown keys raise; a detached header with neither partuuid nor path warns,
and raises when a uuid is also set; a missing header file on the build host
only warns; the key file is then validated when one is configured. -/
def _validate_cryptsetup_config (store : ValidationStore) (mapped_name : String) :
    Except String (List LogMsg) := do
  if !store.validate then
    return [⟨.warning, "Skipping cryptsetup configuration validation."⟩]
  let config ←
    match List.lookup mapped_name store.cryptsetup with
    | none => Except.error s!"No cryptsetup configuration found for: {mapped_name}"
    | some c => pure c
  match firstUnknownParam config with
  | some p => Except.error s!"Invalid parameter: {p}"
  | none => do
    let logs1 ←
      if truthyKey config "header_file" then do
        let logs_a ←
          if !truthyKey config "partuuid" && !truthyKey config "path" then
            if truthyKey config "uuid" then
              Except.error s!"A UUID cannot be used with a detached header: {mapped_name}"
            else
              pure ([⟨LogLevel.warning,
                s!"A partuuid or device path must be specified when using detached headers: {mapped_name}"⟩] :
                  List LogMsg)
          else pure []
        let hf := ((cvGet config "header_file").map CVal.render).getD ""
        let logs_b : List LogMsg :=
          if !store.host_files.contains hf then
            [⟨.warning, s!"[{mapped_name}] Header file not found: " ++ colorize hf⟩]
          else []
        pure (logs_a ++ logs_b)
      else
        if !truthyKey config "partuuid" && !truthyKey config "uuid"
            && !truthyKey config "path" then
          if !store.autodetect_root_luks then
            Except.error
              s!"A device uuid, partuuid, or path must be specified for cryptsetup mount: {mapped_name}"
          else pure []
        else pure []
    let logs2 ←
      if truthyKey config "key_file" then _validate_crypysetup_key store config
      else pure []
    pure (logs1 ++ logs2)

end Cryptsetup

namespace Generator

/-- The value a hook function returns: nothing, one string, or a list of
lines (ugrd/initramfs_generator.py). -/
inductive FuncOut where
  | none
  | str (s : String)
  | list (lines : List String)
  deriving DecidableEq, Repr

/-- Python truthiness of a function result. -/
def FuncOut.truthy : FuncOut → Bool
  | .none => false
  | .str s => s ≠ ""
  | .list l => !l.isEmpty

/-- The function _run_func first collapses a one-element list result to its element. -/
def collapseSingleton : FuncOut → FuncOut
  | .list [s] => .str s
  | o => o

/-- The table self.included_functions: function name to registered content, in
registration order. -/
abbrev Included := List (String × FuncOut)

/-- Version string (__version__) of ugrd/initramfs_generator.py. -/
def generatorVersion : String := "0.9.4"

/-- Model of _run_func on the result of one hook function: truthy single-line
strings are returned for inlining unless force_include is set; everything
else truthy is registered under the function name, which is returned as
the call to emit.  Raises on a name already registered or colliding with a
declared binary. -/
def _run_func (binaries : List String) (included : Included)
    (name : String) (output : FuncOut) (force_include : Bool) :
    Except String (Option String × Included) :=
  if !output.truthy then .ok (Option.none, included)
  else
    let output := collapseSingleton output
    if (List.lookup name included).isSome then
      .error s!"Function \x27{name}\x27 has already been included in the bash source file"
    else if binaries.contains name then
      .error s!"Function name collides with defined binary: {name}"
    else
      match output with
      | .str s =>
        if !force_include then .ok (some s, included)
        else .ok (some name, included ++ [(name, .str s)])
      | o => .ok (some name, included ++ [(name, o)])

/-- Model of _run_funcs: runs a list of hook functions (modelled by name and
returned output), collecting the truthy results. -/
def _run_funcs (binaries : List String) (included : Included)
    (functions : List (String × FuncOut)) (force_include : Bool) :
    Except String (List String × Included) :=
  match functions with
  | [] => .ok ([], included)
  | (name, output) :: rest => do
    let (res, included2) ← _run_func binaries included name output force_include
    let (out_rest, included3) ← _run_funcs binaries included2 rest force_include
    let this_out : List String :=
      match res with
      | some s => if s ≠ "" then [s] else []
      | Option.none => []
    pure (this_out ++ out_rest, included3)

/-- The configuration generate_init reads.  The custom_init import is
modelled by the pair the imported callable returns: the init line for the
main script and the lines of the custom init file. -/
structure GenConfig where
  shebang : String
  binaries : List String
  /-- config_dict["imports"]: hook name to list of functions, each modelled
  by its name and the output it returns when called -/
  imports : List (String × List (String × FuncOut))
  custom_init : Option (String × List String)
  /-- config_dict["_custom_init_file"] -/
  custom_init_file : String

/-- Model of _run_hook for the hooks generate_init runs: the generator object has no
attribute named after any init hook, so only the externally imported
functions contribute. -/
def run_hook (c : GenConfig) (included : Included) (hook : String) (force_include : Bool) :
    Except String (List String × Included) :=
  _run_funcs c.binaries included ((List.lookup hook c.imports).getD []) force_include

/-- Model of _run_init_hook: a Begin banner plus the hook output, or None when the
hook produced nothing. -/
def run_init_hook (c : GenConfig) (included : Included) (level : String) :
    Except String (Option (List String) × Included) := do
  let (out, included2) ← run_hook c included level false
  if out.isEmpty then pure (Option.none, included2)
  else pure (some (s!"\n\n# Begin {level}" :: out), included2)

/-- The list self.init_types. -/
def init_types : List String :=
  ["init_debug", "init_early", "init_main", "init_late", "init_premount",
   "init_mount", "init_cleanup"]

/-- Model of generate_init_main: concatenates the output of every init hook,
skipping hooks with no output. -/
def generate_init_main_aux (c : GenConfig) :
    Included → List String → Except String (List String × Included)
  | incl, [] => .ok ([], incl)
  | incl, t :: rest => do
    let (lvl, incl2) ← run_init_hook c incl t
    let (restOut, incl3) ← generate_init_main_aux c incl2 rest
    pure (lvl.getD [] ++ restOut, incl3)

/-- Model of generate_init_funcs: renders every registered function as a named shell
function (raises TypeError on content that is neither string nor list). -/
def generate_init_funcs (included : Included) : Except String (List String) := do
  let blocks ← included.mapM (fun fkv =>
    match fkv.2 with
    | .str s => Except.ok ["\n\n" ++ fkv.1 ++ "() \x7b", "    " ++ s, "\x7d"]
    | .list ls =>
      Except.ok (["\n\n" ++ fkv.1 ++ "() \x7b"] ++ ls.map (fun line => "    " ++ line) ++ ["\x7d"])
    | .none => Except.error s!"Function content is not a string or list: {fkv.1}")
  pure (s!"# Generated by UGRD v{generatorVersion}" :: blocks.flatten)

/-- Python list.insert(i, x) for a non-negative index (clamps to append). -/
def pyInsert (i : Nat) (x : String) (l : List String) : List String :=
  l.take i ++ [x] ++ l.drop i

/-- The tail of generate_init after the END marker: the unconditional
`if custom_init:` reads the local variable, which is unbound (none) when no
custom_init import exists — a NameError; otherwise the custom file and the
init file are written.  The first component collects the files written so
far (files written before a raised error are left in place). -/
def finishInit (c : GenConfig) (files : List (String × List String)) (init : List String)
    (custom_var : Option (List String)) : List (String × List String) × Except String Unit :=
  match custom_var with
  | Option.none => (files, .error "NameError: name \x27custom_init\x27 is not defined")
  | some custom_lines =>
    let files :=
      if !custom_lines.isEmpty then files ++ [(c.custom_init_file, custom_lines)] else files
    (files ++ [("init", init)], .ok ())

/-- The included-functions block of generate_init: when any functions were
registered, write init_funcs.sh, insert the sourcing line at index 2 of the
init script, and do the same to the custom_init lines — reading the
custom_init local, unbound (none) without a custom_init import. -/
def includeFuncsStep (c : GenConfig) (init : List String) (custom_var : Option (List String))
    (included : Included) : List (String × List String) × Except String Unit :=
  if included.isEmpty then finishInit c [] init custom_var
  else
    match generate_init_funcs included with
    | .error e => ([], .error e)
    | .ok init_funcs =>
      let files := [("init_funcs.sh", init_funcs)]
      let init2 := pyInsert 2 "source /init_funcs.sh" init
      match custom_var with
      | Option.none => (files, .error "NameError: name \x27custom_init\x27 is not defined")
      | some custom_lines =>
        let custom_var2 :=
          if !custom_lines.isEmpty then some (pyInsert 2 "source /init_funcs.sh" custom_lines)
          else some custom_lines
        finishInit c files init2 custom_var2

/-- The part of generate_init from the init_final hook on. -/
def afterMain (c : GenConfig) (init : List String) (custom_var : Option (List String))
    (included : Included) : List (String × List String) × Except String Unit :=
  match run_init_hook c included "init_final" with
  | .error e => ([], .error e)
  | .ok (Option.none, _) => ([], .error "TypeError: NoneType object is not iterable")
  | .ok (some fin, incl4) =>
    includeFuncsStep c (init ++ fin ++ ["\n\n# END INIT"]) custom_var incl4

/-- Model of generate_init: assembles the init script.  Returns the files written
(name and contents, in write order) and the overall outcome; init.extend of
a hook that returned None raises TypeError, exactly as the Python does. -/
def generate_init (c : GenConfig) : List (String × List String) × Except String Unit :=
  match run_hook c [] "functions" true with
  | .error e => ([], .error e)
  | .ok (_, incl1) =>
    match run_init_hook c incl1 "init_pre" with
    | .error e => ([], .error e)
    | .ok (Option.none, _) => ([], .error "TypeError: NoneType object is not iterable")
    | .ok (some pre, incl2) =>
      let base := [c.shebang, s!"# Generated by UGRD v{generatorVersion}"] ++ pre
      match c.custom_init with
      | some (init_line, custom_lines) =>
        afterMain c (base ++ ["\n\n# !!custom_init", init_line]) (some custom_lines) incl2
      | Option.none =>
        match generate_init_main_aux c incl2 init_types with
        | .error e => ([], .error e)
        | .ok (mainOut, incl3) => afterMain c (base ++ mainOut) Option.none incl3

end Generator

namespace Helpers

/-- What the external command did: timed out, or completed with an exit
code and captured output. -/
inductive CmdOutcome where
  | timeout
  | completed (returncode : Nat) (stdout stderr : String)
  deriving DecidableEq, Repr

/-- Python repr of a list of strings, as %s renders it in the timeout
message of GeneratorHelpers._run. -/
def pyListRepr (args : List String) : String :=
  "[" ++ String.intercalate ", " (args.map (fun a => "\x27" ++ a ++ "\x27")) ++ "]"

/-- Python timeout fallback (timeout = timeout or self.timeout): a falsy
(absent or zero) timeout argument falls back to the instance timeout. -/
def resolveTimeout (self_timeout : Nat) : Option Nat → Nat
  | some t => if t ≠ 0 then t else self_timeout
  | Option.none => self_timeout

/-- GeneratorHelpers._run (src/ugrd/generator_helpers.py): a timeout raises
RuntimeError unconditionally; a non-zero exit logs three error records
unless fail_silent and raises RuntimeError only when fail_hard.  Returns
the exit code and the log records on the non-raising paths. -/
def _run (self_timeout : Nat) (args : List String) (timeoutArg : Option Nat)
    (fail_silent : Bool) (fail_hard : Bool) (outcome : CmdOutcome) :
    Except String (Nat × List LogMsg) :=
  let timeout := resolveTimeout self_timeout timeoutArg
  match outcome with
  | .timeout => .error (s!"[{timeout}s] Command timed out: " ++ pyListRepr args)
  | .completed code out err =>
    if code ≠ 0 then
      let logs : List LogMsg :=
        if !fail_silent then
          [⟨.error, "Failed to run command: " ++ colorize (String.intercalate " " args)⟩,
           ⟨.error, s!"Command output:\n{out}"⟩,
           ⟨.error, s!"Command error:\n{err}"⟩]
        else []
      if fail_hard then .error ("Failed to run command: " ++ String.intercalate " " args)
      else .ok (code, logs)
    else .ok (code, [])

end Helpers

/-! ## Claims -/

/-- Reduction of an Except bind on a success value (helper for unfolding
the do-notation in the embedded functions). -/
theorem except_ok_bind {α β : Type} (a : α) (f : α → Except String β) :
    (Except.ok a : Except String α) >>= f = f a := rfl

/-- Reduction of an Option bind on a present value (helper for unfolding
the do-notation in the embedded functions). -/
theorem option_some_bind {α β : Type} (a : α) (f : α → Option β) :
    (some a : Option α) >>= f = f a := rfl

/-- Identity of toString on a string (helper for normalizing
interpolated strings). -/
theorem toString_str (s : String) : toString s = s := rfl

/-- Reduction of pure on Except to the ok constructor (helper for unfolding
do-notation). -/
theorem except_pure_eq_ok {α : Type} (a : α) : (pure a : Except String α) = Except.ok a := rfl

/-- Claim C4: within one build, running a hook function whose name was
already registered as an included function raises the duplicate-function
error, and running a function whose name equals a declared binary name
raises the name-collision error; both are raised errors, which abort
assembly. -/
theorem C4_duplicate_and_collision (binaries : List String) (included : Generator.Included)
    (name : String) (output : Generator.FuncOut) (force_include : Bool)
    (htruthy : output.truthy = true) :
    ((List.lookup name included).isSome = true →
      Generator._run_func binaries included name output force_include =
        .error s!"Function \x27{name}\x27 has already been included in the bash source file")
    ∧ ((List.lookup name included).isSome = false → name ∈ binaries →
      Generator._run_func binaries included name output force_include =
        .error s!"Function name collides with defined binary: {name}") := by
  constructor
  · intro h1
    simp [Generator._run_func, htruthy, h1]
  · intro h1 h2
    simp [Generator._run_func, htruthy, h1, h2]

/-- Witness for C4 at concrete inputs. -/
theorem C4_duplicate_and_collision_witness :
    Generator._run_func [] [("dup_f", .str "x")] "dup_f" (.str "y") false =
        .error "Function \x27dup_f\x27 has already been included in the bash source file"
    ∧ Generator._run_func ["col_f"] [] "col_f" (.str "y") false =
        .error "Function name collides with defined binary: col_f" := by
  refine ⟨?_, ?_⟩
  · exact (C4_duplicate_and_collision [] [("dup_f", .str "x")] "dup_f" (.str "y") false
      (by decide)).1 (by decide)
  · exact (C4_duplicate_and_collision ["col_f"] [] "col_f" (.str "y") false
      (by decide)).2 (by decide) (by decide)

/-- Claim C9: a truthy single-line result (a string or a one-element list,
without force_include) is inlined at its position in the hook output; a
multi-line result is registered once in the included-functions table under
the function name and the hook output carries only the name as a call; an
empty result contributes nothing. -/
theorem C9_inline_register_empty (binaries : List String) (included : Generator.Included)
    (n1 n2 n3 s x y : String) (t : List String)
    (hs : s ≠ "") (hn2 : n2 ≠ "")
    (h1 : List.lookup n1 included = Option.none) (hb1 : n1 ∉ binaries)
    (h2 : List.lookup n2 included = Option.none) (hb2 : n2 ∉ binaries) :
    (Generator._run_func binaries included n1 (.str s) false = .ok (some s, included))
    ∧ (Generator._run_func binaries included n1 (.list [s]) false = .ok (some s, included))
    ∧ (Generator._run_func binaries included n2 (.list (x :: y :: t)) false =
        .ok (some n2, included ++ [(n2, .list (x :: y :: t))]))
    ∧ (Generator._run_func binaries included n3 .none false = .ok (Option.none, included))
    ∧ (Generator._run_funcs binaries included
        [(n1, .str s), (n2, .list (x :: y :: t)), (n3, .none)] false =
        .ok ([s, n2], included ++ [(n2, .list (x :: y :: t))])) := by
  have hrf1 : Generator._run_func binaries included n1 (.str s) false = .ok (some s, included) := by
    simp [Generator._run_func, Generator.FuncOut.truthy, Generator.collapseSingleton,
      hs, h1, hb1]
  have hrf2 : Generator._run_func binaries included n2 (.list (x :: y :: t)) false =
      .ok (some n2, included ++ [(n2, .list (x :: y :: t))]) := by
    simp [Generator._run_func, Generator.FuncOut.truthy, Generator.collapseSingleton,
      h2, hb2]
  have hrf3 : ∀ incl : Generator.Included,
      Generator._run_func binaries incl n3 .none false = .ok (Option.none, incl) := by
    intro incl
    simp [Generator._run_func, Generator.FuncOut.truthy]
  refine ⟨hrf1, ?_, hrf2, hrf3 included, ?_⟩
  · simp [Generator._run_func, Generator.FuncOut.truthy, Generator.collapseSingleton,
      hs, h1, hb1]
  · simp [Generator._run_funcs, hrf1, hrf2, hrf3, hs, hn2, except_ok_bind]

/-- Witness for C9 at concrete inputs. -/
theorem C9_inline_register_empty_witness :
    Generator._run_funcs [] [] [("one_f", .str "echo one"),
        ("many_f", .list ["echo a", "echo b"]), ("none_f", .none)] false =
      .ok (["echo one", "many_f"], [("many_f", .list ["echo a", "echo b"])]) :=
  (C9_inline_register_empty [] [] "one_f" "many_f" "none_f" "echo one" "echo a" "echo b" []
    (by decide) (by decide) (by decide) (by decide) (by decide) (by decide)).2.2.2.2

/-- Counterexample to claim C7 as stated: a caller that opted into soft
failure (fail_silent = true, fail_hard = false) still has a timeout abort
the call — the timeout raises unconditionally. -/
theorem C7_counterexample :
    Helpers._run 15 ["cryptsetup", "luksDump", "/dev/sda2"] (some 5) true false .timeout =
      .error "[5s] Command timed out: [\x27cryptsetup\x27, \x27luksDump\x27, \x27/dev/sda2\x27]" := by
  rfl

/-- Claim C7 as amended: a timeout is reported through the same generic
RuntimeError channel as a non-zero exit, but it aborts unconditionally,
ignoring fail_silent and fail_hard; only a non-zero exit honours them
(fail_hard = false returns normally, fail_silent suppresses the error
logging). -/
theorem C7_run_timeout_and_failure (self_timeout : Nat) (args : List String)
    (timeoutArg : Option Nat) (fail_silent fail_hard : Bool)
    (code : Nat) (out err : String) :
    (Helpers._run self_timeout args timeoutArg fail_silent fail_hard .timeout =
      .error (s!"[{Helpers.resolveTimeout self_timeout timeoutArg}s] Command timed out: " ++
        Helpers.pyListRepr args))
    ∧ (code ≠ 0 → fail_hard = true →
      Helpers._run self_timeout args timeoutArg fail_silent fail_hard (.completed code out err) =
        .error ("Failed to run command: " ++ String.intercalate " " args))
    ∧ (code ≠ 0 → fail_hard = false →
      Helpers._run self_timeout args timeoutArg fail_silent fail_hard (.completed code out err) =
        .ok (code,
          if fail_silent then [] else
            [⟨.error, "Failed to run command: " ++ colorize (String.intercalate " " args)⟩,
             ⟨.error, s!"Command output:\n{out}"⟩,
             ⟨.error, s!"Command error:\n{err}"⟩]))
    ∧ (Helpers._run self_timeout args timeoutArg fail_silent fail_hard (.completed 0 out err) =
      .ok (0, [])) := by
  refine ⟨rfl, ?_, ?_, ?_⟩
  · intro hc hh
    simp [Helpers._run, hc, hh]
  · intro hc hh
    cases fail_silent <;> simp [Helpers._run, hc, hh]
  · simp [Helpers._run]

/-- Witness for C7 at concrete inputs. -/
theorem C7_run_timeout_and_failure_witness :
    (Helpers._run 15 ["mount"] Option.none false true (.completed 32 "" "mount failed") =
      .error "Failed to run command: mount")
    ∧ (Helpers._run 15 ["mount"] Option.none true false (.completed 32 "" "mount failed") =
      .ok (32, [])) := by
  refine ⟨?_, ?_⟩
  · exact (C7_run_timeout_and_failure 15 ["mount"] Option.none false true 32 "" "mount failed").2.1
      (by decide) rfl
  · have h := (C7_run_timeout_and_failure 15 ["mount"] Option.none true false 32 "" "mount failed").2.2.1
      (by decide) rfl
    simpa using h

/-- Claim C2: a volume processed with no retries value set has retries
filled from the global cryptsetup_retries default, with an info log record
saying so, and the unlock script synthesized from the resulting volume
configuration contains the retry loop header with the loop variable i
ranging from 1 to exactly that default. -/
theorem C2_retries_default_roundtrip (g : Cryptsetup.Globals) (name kf : String) (d : Nat) :
    (Cryptsetup._process_cryptsetup_multi ⟨[], [], Option.none, d, []⟩ name
        [("key_file", CVal.str kf)] =
      .ok (⟨[(name, [("key_file", CVal.str kf), ("retries", CVal.nat d)])],
            [], Option.none, d, []⟩,
        [⟨.info,
          s!"[ugrd.crypto.cryptsetup:{name}] No retries specified, using default: {d}"⟩]))
    ∧ ((Cryptsetup.open_crypt_device g name
          [("key_file", CVal.str kf), ("retries", CVal.nat d)]).isSome = true)
    ∧ (s!"for ((i = 1; i <= {d}; i++)); do" ∈
        (Cryptsetup.open_crypt_device g name
          [("key_file", CVal.str kf), ("retries", CVal.nat d)]).getD []) := by
  refine ⟨rfl, ?_, ?_⟩
  · obtain ⟨p, t, a, m⟩ := g
    cases p <;> cases t <;> cases a <;> cases m <;> rfl
  · obtain ⟨p, t, a, m⟩ := g
    cases p <;> cases t <;> cases a <;> cases m <;>
      simp [Cryptsetup.open_crypt_device, cvGet, hasKey, CVal.render, option_some_bind,
        List.lookup, toString_str]

/-- Claim C5: a volume with both uuid and header_file set (neither
partuuid nor path) is rejected by raw validation with the error saying a
UUID cannot be used with a detached header; a configured detached header
file missing from the build host only produces a warning record, not a
failure. -/
theorem C5_uuid_header_conflict_and_missing_header_warns (name u hf pu : String)
    (hu : u ≠ "") (hh : hf ≠ "") (hp : pu ≠ "") :
    (Cryptsetup._validate_cryptsetup_config
        ⟨true, [(name, [("uuid", CVal.str u), ("header_file", CVal.str hf)])], false, true, []⟩
        name =
      .error s!"A UUID cannot be used with a detached header: {name}")
    ∧ (Cryptsetup._validate_cryptsetup_config
        ⟨true, [(name, [("partuuid", CVal.str pu), ("header_file", CVal.str hf)])], false, true, []⟩
        name =
      .ok [⟨.warning, s!"[{name}] Header file not found: {hf}"⟩]) := by
  constructor
  · simp [Cryptsetup._validate_cryptsetup_config, Cryptsetup.firstUnknownParam,
      truthyKey, cvGet, List.lookup, CVal.truthy, CVal.render, colorize,
      except_ok_bind, hu, hh]
    rfl
  · simp [Cryptsetup._validate_cryptsetup_config, Cryptsetup._validate_crypysetup_key,
      Cryptsetup.firstUnknownParam, truthyKey, cvGet, List.lookup, CVal.truthy,
      CVal.render, colorize, except_ok_bind, toString_str, hp, hh]
    rfl

/-- Witness for C5 at concrete inputs. -/
theorem C5_witness :
    (Cryptsetup._validate_cryptsetup_config
        ⟨true, [("vault", [("uuid", CVal.str "abcd-1234"), ("header_file", CVal.str "/hdr")])],
         false, true, []⟩ "vault" =
      .error "A UUID cannot be used with a detached header: vault")
    ∧ (Cryptsetup._validate_cryptsetup_config
        ⟨true, [("vault", [("partuuid", CVal.str "9876"), ("header_file", CVal.str "/hdr")])],
         false, true, []⟩ "vault" =
      .ok [⟨.warning, "[vault] Header file not found: /hdr"⟩]) :=
  C5_uuid_header_conflict_and_missing_header_warns "vault" "abcd-1234" "/hdr" "9876"
    (by decide) (by decide) (by decide)

/-- Counterexample to claim C3 as stated: an unknown key arriving through
the multi-merge processing path is logged at error level, not as a
warning — the processing result carries no warning-level record at all
(it does continue without aborting). -/
theorem C3_counterexample :
    (Cryptsetup._process_cryptsetup_multi ⟨[], [], Option.none, 5, []⟩ "vault"
        [("foo", CVal.str "bar"), ("key_file", CVal.str "/k")] =
      .ok (⟨[("vault", [("foo", CVal.str "bar"), ("key_file", CVal.str "/k"),
                        ("retries", CVal.nat 5)])], [], Option.none, 5, []⟩,
        [⟨.error, "[vault] Unknown parameter: foo"⟩,
         ⟨.info, "[ugrd.crypto.cryptsetup:vault] No retries specified, using default: 5"⟩]))
    ∧ ((match Cryptsetup._process_cryptsetup_multi ⟨[], [], Option.none, 5, []⟩ "vault"
          [("foo", CVal.str "bar"), ("key_file", CVal.str "/k")] with
        | .ok (_, logs) => logs.all (fun m => m.level ≠ LogLevel.warning)
        | .error _ => false) = true) := by
  exact ⟨rfl, by decide⟩

/-- Claim C3 as amended: an unknown configuration key makes the raw
validation pass fail with the invalid-parameter error, while the same
unknown key arriving through the multi-merge processing path is only
logged (at error level, not warning level) and does not abort processing. -/
theorem C3_unknown_param_error_vs_log (name k kf : String) (v : CVal) (d : Nat)
    (hk : k ∉ Cryptsetup.CRYPTSETUP_PARAMETERS) :
    (Cryptsetup._validate_cryptsetup_config ⟨true, [(name, [(k, v)])], false, true, []⟩ name =
      .error s!"Invalid parameter: {k}")
    ∧ (Cryptsetup._process_cryptsetup_multi ⟨[], [], Option.none, d, []⟩ name
        [(k, v), ("key_file", CVal.str kf)] =
      .ok (⟨[(name, [(k, v), ("key_file", CVal.str kf), ("retries", CVal.nat d)])],
            [], Option.none, d, []⟩,
        [⟨.error, s!"[{name}] Unknown parameter: {k}"⟩,
         ⟨.info,
          s!"[ugrd.crypto.cryptsetup:{name}] No retries specified, using default: {d}"⟩])) := by
  have hc : Cryptsetup.CRYPTSETUP_PARAMETERS.contains k = false := by
    simpa using hk
  have hd : decide (k ∈ Cryptsetup.CRYPTSETUP_PARAMETERS) = false := decide_eq_false hk
  have h1 : ("key_type" == k) = false := by
    rw [beq_eq_false_iff_ne]
    rintro rfl
    exact hk (by decide)
  have h2 : ("include_key" == k) = false := by
    rw [beq_eq_false_iff_ne]
    rintro rfl
    exact hk (by decide)
  have h3 : ("include_header" == k) = false := by
    rw [beq_eq_false_iff_ne]
    rintro rfl
    exact hk (by decide)
  have h4 : ("retries" == k) = false := by
    rw [beq_eq_false_iff_ne]
    rintro rfl
    exact hk (by decide)
  have h5 : ¬ (k = "retries") := by
    rintro rfl
    exact hk (by decide)
  constructor
  · simp [Cryptsetup._validate_cryptsetup_config, Cryptsetup.firstUnknownParam,
      List.find?, truthyKey, cvGet, List.lookup, except_ok_bind, hc, hd]
  · simp [Cryptsetup._process_cryptsetup_multi, Cryptsetup._merge_cryptsetup,
      truthyKey, cvGet, List.lookup, listSet, colorize, except_ok_bind, toString_str,
      hc, hd, h1, h2, h3, h4, h5]
    rfl

/-- Witness for C3 at concrete inputs. -/
theorem C3_unknown_param_error_vs_log_witness :
    (Cryptsetup._validate_cryptsetup_config
        ⟨true, [("data", [("bogus_key", CVal.str "x")])], false, true, []⟩ "data" =
      .error "Invalid parameter: bogus_key")
    ∧ (Cryptsetup._process_cryptsetup_multi ⟨[], [], Option.none, 3, []⟩ "data"
        [("bogus_key", CVal.str "x"), ("key_file", CVal.str "/k")] =
      .ok (⟨[("data", [("bogus_key", CVal.str "x"), ("key_file", CVal.str "/k"),
                       ("retries", CVal.nat 3)])], [], Option.none, 3, []⟩,
        [⟨.error, "[data] Unknown parameter: bogus_key"⟩,
         ⟨.info, "[ugrd.crypto.cryptsetup:data] No retries specified, using default: 3"⟩])) :=
  C3_unknown_param_error_vs_log "data" "bogus_key" "/k" (CVal.str "x") 3 (by decide)

/-- Looking up the removed key after dict.pop gives nothing. -/
theorem cvGet_dictPop_self (c : Config) (k : String) :
    cvGet (dictPop c k) k = Option.none := by
  induction c with
  | nil => rfl
  | cons hd tl ih =>
    obtain ⟨a, b⟩ := hd
    by_cases hak : a = k
    · simp [dictPop, cvGet, List.lookup, hak] at ih ⊢
      exact ih
    · have : (k == a) = false := beq_eq_false_iff_ne.mpr (Ne.symm hak)
      simp [dictPop, cvGet, List.lookup, hak, this] at ih ⊢
      exact ih

/-- Looking up a different key after dict.pop is unchanged. -/
theorem cvGet_dictPop_ne (c : Config) (k k2 : String) (h : k2 ≠ k) :
    cvGet (dictPop c k) k2 = cvGet c k2 := by
  induction c with
  | nil => rfl
  | cons hd tl ih =>
    obtain ⟨a, b⟩ := hd
    by_cases hak : a = k
    · subst hak
      have : (k2 == a) = false := beq_eq_false_iff_ne.mpr h
      simp [dictPop, cvGet, List.lookup, this] at ih ⊢
      exact ih
    · by_cases hq : k2 = a
      · subst hq
        simp [dictPop, cvGet, List.lookup, hak]
      · have : (k2 == a) = false := beq_eq_false_iff_ne.mpr hq
        simp [dictPop, cvGet, List.lookup, hak, this] at ih ⊢
        exact ih

/-- A synthesized unlock script implies the volume configuration carried a
retries entry (the Python indexes parameters["retries"]). -/
theorem open_crypt_device_some_retries (g : Cryptsetup.Globals) (name : String)
    (p : Config) (L : List String)
    (h : Cryptsetup.open_crypt_device g name p = some L) :
    (cvGet p "retries").isSome = true := by
  cases hret : cvGet p "retries" with
  | some rv => rfl
  | none =>
    rw [Cryptsetup.open_crypt_device] at h
    simp [hret] at h

/-- Stripping the key parameters keeps the retries entry and removes the
key command, so the fallback re-run of open_crypt_device always yields a
script when the keyed run did. -/
theorem open_crypt_device_strip_isSome (g : Cryptsetup.Globals) (name : String)
    (p : Config) (h : (cvGet p "retries").isSome = true) :
    (Cryptsetup.open_crypt_device g name (Cryptsetup.strip_key_params p)).isSome = true := by
  obtain ⟨rv, hrv⟩ := Option.isSome_iff_exists.mp h
  have hr : cvGet (Cryptsetup.strip_key_params p) "retries" = some rv := by
    rw [Cryptsetup.strip_key_params, cvGet_dictPop_ne _ _ _ (by decide),
      cvGet_dictPop_ne _ _ _ (by decide), cvGet_dictPop_ne _ _ _ (by decide), hrv]
  have hkc : cvGet (Cryptsetup.strip_key_params p) "key_command" = Option.none := by
    rw [Cryptsetup.strip_key_params, cvGet_dictPop_ne _ _ _ (by decide),
      cvGet_dictPop_self]
  rw [Cryptsetup.open_crypt_device]
  simp [hr, hkc, option_some_bind]

/-- Counterexample to claim C1 as stated: a volume whose parameters
contain try_nokey and a configured key_command (no key_file) does not get
a script with a fallback block — crypt_init produces no script at all
(the Python raises KeyError on parameters["key_file"]); and a volume with
key_command plus an empty key_file yields a script with no fallback block
either, although a key_command and a key_file are both configured. -/
theorem C1_counterexample :
    (Cryptsetup.crypt_init ⟨false, false, true, false⟩
      [("root", [("retries", CVal.nat 3), ("key_command", CVal.str "getkey"),
                 ("try_nokey", CVal.bool true)])] = Option.none)
    ∧ ((Cryptsetup.crypt_init ⟨false, false, true, false⟩
        [("root", [("retries", CVal.nat 3), ("key_file", CVal.str ""),
                   ("key_command", CVal.str "getkey"),
                   ("try_nokey", CVal.bool true)])]).isSome = true)
    ∧ ("    ewarn \"Failed to open device using keys: root\"" ∉
        (Cryptsetup.crypt_init ⟨false, false, true, false⟩
          [("root", [("retries", CVal.nat 3), ("key_file", CVal.str ""),
                     ("key_command", CVal.str "getkey"),
                     ("try_nokey", CVal.bool true)])]).getD []) := by
  refine ⟨rfl, rfl, ?_⟩
  decide

/-- Claim C1 as amended: the fallback block is emitted exactly when the
volume parameters contain the key try_nokey and key_file is set to a
truthy value; it then follows the main unlock loop, guarded to run only
when the device is still not open, and consists of the unlock loop
re-synthesized with key_file, key_command and reset_command stripped.  A
configured key_command alone does not produce a fallback, and a volume
without try_nokey gets none. -/
theorem C1_fallback_requires_truthy_keyfile (g : Cryptsetup.Globals) (name : String)
    (p : Config) (openL : List String)
    (hopen : Cryptsetup.open_crypt_device g name p = some openL) :
    ((hasKey p "try_nokey" && truthyKey p "key_file") = true →
      (Cryptsetup.nokey_fallback g name p).isSome = true
      ∧ Cryptsetup.crypt_init g [(name, p)] =
        some (s!"einfo \"Unlocking LUKS volumes, ugrd.cryptsetup version: 3.10.0\"" ::
          (Cryptsetup.already_open_check name ++ openL ++
            (Cryptsetup.nokey_fallback g name p).getD [] ++
            Cryptsetup.final_open_check name)))
    ∧ ((hasKey p "try_nokey" && truthyKey p "key_file") = false →
      Cryptsetup.crypt_init g [(name, p)] =
        some (s!"einfo \"Unlocking LUKS volumes, ugrd.cryptsetup version: 3.10.0\"" ::
          (Cryptsetup.already_open_check name ++ openL ++
            Cryptsetup.final_open_check name))) := by
  have hret := open_crypt_device_some_retries g name p openL hopen
  have hstrip := open_crypt_device_strip_isSome g name p hret
  obtain ⟨inner, hinner⟩ := Option.isSome_iff_exists.mp hstrip
  have hfbeq : Cryptsetup.nokey_fallback g name p =
      some ([s!"if ! cryptsetup status {name} > /dev/null 2>&1; then",
             s!"    ewarn \"Failed to open device using keys: {name}\""] ++
            inner.map (fun bash_line => "    " ++ bash_line) ++ ["fi"]) := by
    rw [Cryptsetup.nokey_fallback, hinner]
    rfl
  constructor
  · intro hcond
    refine ⟨by rw [hfbeq]; rfl, ?_⟩
    rw [Cryptsetup.crypt_init, Cryptsetup.crypt_init_body, hopen]
    simp [hcond, hfbeq, option_some_bind, Cryptsetup.crypt_init_body,
      Cryptsetup.cryptsetup_version]
    rfl
  · intro hcond
    rw [Cryptsetup.crypt_init, Cryptsetup.crypt_init_body, hopen]
    simp [hcond, option_some_bind, Cryptsetup.crypt_init_body,
      Cryptsetup.cryptsetup_version]
    rfl

/-- Witness for C1 at concrete inputs: a volume with try_nokey and a
truthy key_file gets the fallback block; a volume with only key_file set
and no try_nokey gets none. -/
theorem C1_fallback_requires_truthy_keyfile_witness :
    ((Cryptsetup.nokey_fallback ⟨false, false, true, false⟩ "root"
        [("retries", CVal.nat 3), ("key_file", CVal.str "/key"),
         ("try_nokey", CVal.bool true)]).isSome = true
      ∧ Cryptsetup.crypt_init ⟨false, false, true, false⟩
          [("root", [("retries", CVal.nat 3), ("key_file", CVal.str "/key"),
                     ("try_nokey", CVal.bool true)])] =
        some ("einfo \"Unlocking LUKS volumes, ugrd.cryptsetup version: 3.10.0\"" ::
          (Cryptsetup.already_open_check "root" ++
            (Cryptsetup.open_crypt_device ⟨false, false, true, false⟩ "root"
              [("retries", CVal.nat 3), ("key_file", CVal.str "/key"),
               ("try_nokey", CVal.bool true)]).getD [] ++
            (Cryptsetup.nokey_fallback ⟨false, false, true, false⟩ "root"
              [("retries", CVal.nat 3), ("key_file", CVal.str "/key"),
               ("try_nokey", CVal.bool true)]).getD [] ++
            Cryptsetup.final_open_check "root")))
    ∧ (Cryptsetup.crypt_init ⟨false, false, true, false⟩
          [("plain", [("retries", CVal.nat 2), ("key_file", CVal.str "/key")])] =
        some ("einfo \"Unlocking LUKS volumes, ugrd.cryptsetup version: 3.10.0\"" ::
          (Cryptsetup.already_open_check "plain" ++
            (Cryptsetup.open_crypt_device ⟨false, false, true, false⟩ "plain"
              [("retries", CVal.nat 2), ("key_file", CVal.str "/key")]).getD [] ++
            Cryptsetup.final_open_check "plain"))) := by
  constructor
  · exact (C1_fallback_requires_truthy_keyfile ⟨false, false, true, false⟩ "root"
      [("retries", CVal.nat 3), ("key_file", CVal.str "/key"), ("try_nokey", CVal.bool true)]
      _ rfl).1 (by decide)
  · exact (C1_fallback_requires_truthy_keyfile ⟨false, false, true, false⟩ "plain"
      [("retries", CVal.nat 2), ("key_file", CVal.str "/key")]
      _ rfl).2 (by decide)

/-- Evaluation of crypt_init on a two-volume configuration, documenting
claim C6: each volume gets its already-open check first (index 1 before
the loop header at index 5), but the skip command emitted is a bare
return (index 3) inside the single flat function body that also holds the
second volume (its check at index 26 and loop at index 30) — at boot, that
return exits the whole generated function, not just the one volume. -/
theorem C6_already_open_check_eval :
    ((Cryptsetup.crypt_init ⟨false, false, true, false⟩
        [("luks0", [("retries", CVal.nat 1)]),
         ("luks1", [("retries", CVal.nat 1)])]).isSome = true)
    ∧ (((Cryptsetup.crypt_init ⟨false, false, true, false⟩
        [("luks0", [("retries", CVal.nat 1)]),
         ("luks1", [("retries", CVal.nat 1)])]).getD [])[1]? =
        some "if cryptsetup status luks0 > /dev/null 2>&1; then")
    ∧ (((Cryptsetup.crypt_init ⟨false, false, true, false⟩
        [("luks0", [("retries", CVal.nat 1)]),
         ("luks1", [("retries", CVal.nat 1)])]).getD [])[3]? = some "    return")
    ∧ (((Cryptsetup.crypt_init ⟨false, false, true, false⟩
        [("luks0", [("retries", CVal.nat 1)]),
         ("luks1", [("retries", CVal.nat 1)])]).getD [])[5]? =
        some "for ((i = 1; i <= 1; i++)); do")
    ∧ (((Cryptsetup.crypt_init ⟨false, false, true, false⟩
        [("luks0", [("retries", CVal.nat 1)]),
         ("luks1", [("retries", CVal.nat 1)])]).getD [])[26]? =
        some "if cryptsetup status luks1 > /dev/null 2>&1; then")
    ∧ (((Cryptsetup.crypt_init ⟨false, false, true, false⟩
        [("luks0", [("retries", CVal.nat 1)]),
         ("luks1", [("retries", CVal.nat 1)])]).getD [])[30]? =
        some "for ((i = 1; i <= 1; i++)); do") := by
  refine ⟨rfl, rfl, rfl, rfl, rfl, rfl⟩

/-- Counterexample to claim C8 as stated: with a custom_init import, the
assembled init file is not the concatenation of shebang, banner, pre-phase
output, a single delegating init line, final-phase output and the END
marker — the custom branch also inserts a marker comment line before the
delegating line. -/
theorem C8_counterexample :
    (List.lookup "init" (Generator.generate_init
        { shebang := "#!/bin/sh", binaries := [],
          imports := [("init_pre", [("pre_f", Generator.FuncOut.str "echo pre")]),
                      ("init_final", [("fin_f", Generator.FuncOut.str "echo fin")])],
          custom_init := some ("exec /init_custom.sh", ["#!/bin/sh", "# custom", "echo custom"]),
          custom_init_file := "init_custom.sh" }).1 =
      some ["#!/bin/sh", "# Generated by UGRD v0.9.4", "\n\n# Begin init_pre", "echo pre",
            "\n\n# !!custom_init", "exec /init_custom.sh", "\n\n# Begin init_final", "echo fin",
            "\n\n# END INIT"])
    ∧ ¬ (["#!/bin/sh", "# Generated by UGRD v0.9.4", "\n\n# Begin init_pre", "echo pre",
          "\n\n# !!custom_init", "exec /init_custom.sh", "\n\n# Begin init_final", "echo fin",
          "\n\n# END INIT"] =
         ["#!/bin/sh", "# Generated by UGRD v0.9.4"] ++ ["\n\n# Begin init_pre", "echo pre"]
           ++ ["exec /init_custom.sh"] ++ ["\n\n# Begin init_final", "echo fin"]
           ++ ["\n\n# END INIT"]) := by
  exact ⟨rfl, by decide⟩

/-- Claim C8 as amended: the assembled init script is, in order, the
shebang line, the version banner, the pre-phase output, then (in the only
completing configuration: a custom main) a marker comment line followed by
the single delegating init line, the final-phase output and the terminal
END marker; when functions were registered, the function-definitions file
is written and the sourcing directive is inserted at index 2 (right after
the banner) of both the main script and the custom-main replacement. -/
theorem C8_assembled_init_structure (sb ps fs il fb c1 c2 : String) (cs : List String)
    (hps : ps ≠ "") (hfs : fs ≠ "") (hfb : fb ≠ "") :
    (Generator.generate_init
        { shebang := sb, binaries := [],
          imports := [("init_pre", [("pre_f", Generator.FuncOut.str ps)]),
                      ("init_final", [("fin_f", Generator.FuncOut.str fs)])],
          custom_init := some (il, c1 :: c2 :: cs), custom_init_file := "init_custom.sh" } =
      ([("init_custom.sh", c1 :: c2 :: cs),
        ("init", [sb, "# Generated by UGRD v0.9.4", "\n\n# Begin init_pre", ps,
                  "\n\n# !!custom_init", il, "\n\n# Begin init_final", fs, "\n\n# END INIT"])],
       .ok ()))
    ∧ (Generator.generate_init
        { shebang := sb, binaries := [],
          imports := [("functions", [("do_stuff", Generator.FuncOut.str fb)]),
                      ("init_pre", [("pre_f", Generator.FuncOut.str ps)]),
                      ("init_final", [("fin_f", Generator.FuncOut.str fs)])],
          custom_init := some (il, c1 :: c2 :: cs), custom_init_file := "init_custom.sh" } =
      ([("init_funcs.sh",
          ["# Generated by UGRD v0.9.4", "\n\ndo_stuff() \x7b", "    " ++ fb, "\x7d"]),
        ("init_custom.sh", c1 :: c2 :: "source /init_funcs.sh" :: cs),
        ("init", [sb, "# Generated by UGRD v0.9.4", "source /init_funcs.sh",
                  "\n\n# Begin init_pre", ps, "\n\n# !!custom_init", il,
                  "\n\n# Begin init_final", fs, "\n\n# END INIT"])],
       .ok ())) := by
  constructor
  · simp [Generator.generate_init, Generator.run_hook, Generator.run_init_hook,
      Generator._run_funcs, Generator._run_func, Generator.FuncOut.truthy,
      Generator.collapseSingleton, Generator.afterMain, Generator.includeFuncsStep,
      Generator.finishInit, Generator.generate_init_funcs, Generator.pyInsert,
      Generator.generatorVersion, except_ok_bind, except_pure_eq_ok, List.lookup,
      toString_str, hps, hfs]
  · simp [Generator.generate_init, Generator.run_hook, Generator.run_init_hook,
      Generator._run_funcs, Generator._run_func, Generator.FuncOut.truthy,
      Generator.collapseSingleton, Generator.afterMain, Generator.includeFuncsStep,
      Generator.finishInit, Generator.generate_init_funcs, Generator.pyInsert,
      Generator.generatorVersion, except_ok_bind, except_pure_eq_ok, List.lookup,
      toString_str, hps, hfs, hfb]
    rfl

/-- Witness for C8 at concrete inputs. -/
theorem C8_assembled_init_structure_witness :
    Generator.generate_init
        { shebang := "#!/bin/bash", binaries := [],
          imports := [("functions", [("do_stuff", Generator.FuncOut.str "echo stuff")]),
                      ("init_pre", [("pre_f", Generator.FuncOut.str "echo pre")]),
                      ("init_final", [("fin_f", Generator.FuncOut.str "echo fin")])],
          custom_init := some ("exec /init_custom.sh", ["#!/bin/bash", "# custom", "echo custom"]),
          custom_init_file := "init_custom.sh" } =
      ([("init_funcs.sh",
          ["# Generated by UGRD v0.9.4", "\n\ndo_stuff() \x7b", "    echo stuff", "\x7d"]),
        ("init_custom.sh", ["#!/bin/bash", "# custom", "source /init_funcs.sh", "echo custom"]),
        ("init", ["#!/bin/bash", "# Generated by UGRD v0.9.4", "source /init_funcs.sh",
                  "\n\n# Begin init_pre", "echo pre", "\n\n# !!custom_init",
                  "exec /init_custom.sh", "\n\n# Begin init_final", "echo fin",
                  "\n\n# END INIT"])],
       .ok ()) :=
  (C8_assembled_init_structure "#!/bin/bash" "echo pre" "echo fin" "exec /init_custom.sh"
    "echo stuff" "#!/bin/bash" "# custom" ["echo custom"]
    (by decide) (by decide) (by decide)).2

/-- Claim C10: a configuration whose imports contain no custom_init entry
can never complete generate_init — the unconditional read of the unbound
custom_init local raises — and the init file is never among the files
written; a concrete run produces exactly the NameError and writes
nothing. -/
theorem C10_custom_init_unbound (c : Generator.GenConfig)
    (h : c.custom_init = Option.none) :
    ((Generator.generate_init c).2 ≠ Except.ok ())
    ∧ List.lookup "init" (Generator.generate_init c).1 = Option.none
    ∧ Generator.generate_init
        { shebang := "#!/bin/sh", binaries := [],
          imports := [("init_pre", [("pre_f", Generator.FuncOut.str "echo pre")]),
                      ("init_final", [("fin_f", Generator.FuncOut.str "echo fin")])],
          custom_init := Option.none, custom_init_file := "init_custom.sh" } =
      ([], .error "NameError: name \x27custom_init\x27 is not defined") := by
  have key : ((Generator.generate_init c).2 ≠ Except.ok ())
      ∧ List.lookup "init" (Generator.generate_init c).1 = Option.none := by
    rw [Generator.generate_init, h]
    simp only [Generator.afterMain, Generator.includeFuncsStep, Generator.finishInit]
    repeat' split
    all_goals simp
  exact ⟨key.1, key.2, rfl⟩

/-- Witness for C10 at a concrete input. -/
theorem C10_custom_init_unbound_witness :
    ((Generator.generate_init
        { shebang := "#!/bin/sh", binaries := [],
          imports := [("init_pre", [("pre_g", Generator.FuncOut.str "echo a")]),
                      ("init_main", [("main_g", Generator.FuncOut.str "echo b")]),
                      ("init_final", [("fin_g", Generator.FuncOut.str "echo c")])],
          custom_init := Option.none, custom_init_file := "init_custom.sh" }).2 ≠
      Except.ok ())
    ∧ List.lookup "init" (Generator.generate_init
        { shebang := "#!/bin/sh", binaries := [],
          imports := [("init_pre", [("pre_g", Generator.FuncOut.str "echo a")]),
                      ("init_main", [("main_g", Generator.FuncOut.str "echo b")]),
                      ("init_final", [("fin_g", Generator.FuncOut.str "echo c")])],
          custom_init := Option.none, custom_init_file := "init_custom.sh" }).1 =
      Option.none := by
  have h := C10_custom_init_unbound
    { shebang := "#!/bin/sh", binaries := [],
      imports := [("init_pre", [("pre_g", Generator.FuncOut.str "echo a")]),
                  ("init_main", [("main_g", Generator.FuncOut.str "echo b")]),
                  ("init_final", [("fin_g", Generator.FuncOut.str "echo c")])],
      custom_init := Option.none, custom_init_file := "init_custom.sh" } rfl
  exact ⟨h.1, h.2.1⟩
